import Mathlib

/-!
Shallow embedding of the homework-status Telegram bot (`homework.py` and
`exceptions.py`): a polling loop that fetches homework statuses from an
HTTP API, validates the decoded JSON, parses the first homework into a
notification string, and notifies a chat when the freshly built report
differs from the previously sent one.

Decoded JSON values are modelled by `JValue` (with mutual list and
object types so that all recursion stays structural).  Python's `None`
and JSON `null` are one value, `JValue.jnull`.  Exceptions are values of
`PyErrPayload`; an exception *object* (`PyError`) additionally carries an
allocation identity `id`, because CPython compares exception objects by
object identity (`Exception` defines no `__eq__`), and the loop stores
the raw exception object in its report.  Each loop cycle that raises is
given a fresh identity by the caller of `main_step`.

External effects are explicit inputs: one cycle consumes the outcome of
its single HTTP request (`HttpResult`).  Telegram delivery errors are
swallowed by `send_message` and change no loop state, so a sent
notification is recorded as the message text handed to `send_message`.
-/

mutual
inductive JValue where
  | jnull
  | jbool (b : Bool)
  | jint (n : Int)
  | jstr (s : String)
  | jlist (xs : JList)
  | jdict (kvs : JDict)
inductive JList where
  | nil
  | cons (v : JValue) (tl : JList)
inductive JDict where
  | nil
  | cons (k : String) (v : JValue) (tl : JDict)
end

/- Structural equality on decoded JSON values, mirroring `==` on the
values the loop actually compares (strings, numbers, null). -/
mutual
def JValue.beq : JValue → JValue → Bool
  | .jnull, .jnull => true
  | .jbool a, .jbool b => a == b
  | .jint a, .jint b => a == b
  | .jstr a, .jstr b => a == b
  | .jlist a, .jlist b => JList.beq a b
  | .jdict a, .jdict b => JDict.beq a b
  | _, _ => false
def JList.beq : JList → JList → Bool
  | .nil, .nil => true
  | .cons a as, .cons b bs => JValue.beq a b && JList.beq as bs
  | _, _ => false
def JDict.beq : JDict → JDict → Bool
  | .nil, .nil => true
  | .cons j a as, .cons k b bs => j == k && JValue.beq a b && JDict.beq as bs
  | _, _ => false
end

/- Python `repr` of a decoded JSON value. -/
mutual
def pyRepr : JValue → String
  | .jnull => "None"
  | .jbool true => "True"
  | .jbool false => "False"
  | .jint n => toString n
  | .jstr s => "'" ++ s ++ "'"
  | .jlist xs => "[" ++ pyReprList xs ++ "]"
  | .jdict kvs => "\x7b" ++ pyReprDict kvs ++ "\x7d"
def pyReprList : JList → String
  | .nil => ""
  | .cons v .nil => pyRepr v
  | .cons v tl => pyRepr v ++ ", " ++ pyReprList tl
def pyReprDict : JDict → String
  | .nil => ""
  | .cons k v .nil => "'" ++ k ++ "': " ++ pyRepr v
  | .cons k v tl => "'" ++ k ++ "': " ++ pyRepr v ++ ", " ++ pyReprDict tl
end

/-- Python `str` of a decoded JSON value (as used by f-string interpolation). -/
def pyStr : JValue → String
  | .jstr s => s
  | v => pyRepr v

/-- Python's type name of a value, as it appears in TypeError messages. -/
def JValue.typeName : JValue → String
  | .jnull => "NoneType"
  | .jbool _ => "bool"
  | .jint _ => "int"
  | .jstr _ => "str"
  | .jlist _ => "list"
  | .jdict _ => "dict"

/-- `v is None` (JSON null decodes to Python's `None` singleton). -/
def JValue.isNull : JValue → Bool
  | .jnull => true
  | _ => false

/-- `isinstance(v, dict)`. -/
def JValue.isDict : JValue → Bool
  | .jdict _ => true
  | _ => false

/-- `isinstance(v, list)`. -/
def JValue.isList : JValue → Bool
  | .jlist _ => true
  | _ => false

def JDict.lookup : JDict → String → Option JValue
  | .nil, _ => none
  | .cons k v tl, key => if k == key then some v else tl.lookup key

/-- `d.get(key)` on a dict `d`: the value if the key is present, else
`None`.  A JSON-null value and an absent key both come out as `jnull`,
exactly as both read as `None` in Python. -/
def pyGet (kvs : JDict) (k : String) : JValue :=
  match kvs.lookup k with
  | some v => v
  | none => .jnull

/-- Python falsiness: `not v`. -/
def pyNot : JValue → Bool
  | .jnull => true
  | .jbool b => !b
  | .jint n => n == 0
  | .jstr s => s.isEmpty
  | .jlist .nil => true
  | .jlist _ => false
  | .jdict .nil => true
  | .jdict _ => false

/-- The exceptions the loop body can raise, with the classes of
`exceptions.py` and the built-in classes Python raises for bad
subscripts, keys and attributes.  `keyError` carries `str(KeyError(k))`,
which is the `repr` of the key. -/
inductive PyErrPayload where
  | apiError (msg : String)
  | apiKeyError (msg : String)
  | typeError (msg : String)
  | keyError (reprKey : String)
  | indexError (msg : String)
  | attributeError (msg : String)
  | homeworkNameNotFoundError (msg : String)
  | homeworkStatusError (msg : String)
deriving DecidableEq

/-- An exception object: its payload plus an allocation identity.
CPython compares exception objects by identity; distinct raises allocate
distinct objects, modelled by distinct `id`s. -/
structure PyError where
  id : Nat
  payload : PyErrPayload
deriving DecidableEq

/-- `str(error)`: the message an f-string interpolates for the object. -/
def PyError.str : PyError → String
  | ⟨_, .apiError m⟩ => m
  | ⟨_, .apiKeyError m⟩ => m
  | ⟨_, .typeError m⟩ => m
  | ⟨_, .keyError r⟩ => r
  | ⟨_, .indexError m⟩ => m
  | ⟨_, .attributeError m⟩ => m
  | ⟨_, .homeworkNameNotFoundError m⟩ => m
  | ⟨_, .homeworkStatusError m⟩ => m

/-- `v[k]` for a string key `k`: dict lookup raising `KeyError` on a
missing key, `TypeError` on every non-dict. -/
def pyIndex (v : JValue) (k : String) : Except PyErrPayload JValue :=
  match v with
  | .jdict kvs =>
    match kvs.lookup k with
    | some x => .ok x
    | none => .error (.keyError ("'" ++ k ++ "'"))
  | .jlist _ => .error (.typeError "list indices must be integers or slices, not str")
  | .jstr _ => .error (.typeError "string indices must be integers")
  | v => .error (.typeError ("'" ++ v.typeName ++ "' object is not subscriptable"))

def JList.get? : JList → Nat → Option JValue
  | .nil, _ => none
  | .cons v _, 0 => some v
  | .cons _ tl, n + 1 => tl.get? n

/-- `v[i]` for a small natural index `i` (the loop only uses `v[0]`). -/
def pyIndexNat (v : JValue) (i : Nat) : Except PyErrPayload JValue :=
  match v with
  | .jlist xs =>
    match xs.get? i with
    | some x => .ok x
    | none => .error (.indexError "list index out of range")
  | .jstr s =>
    if i < s.length then .ok (.jstr ((s.drop i).take 1))
    else .error (.indexError "string index out of range")
  | .jdict _ => .error (.keyError (toString i))
  | v => .error (.typeError ("'" ++ v.typeName ++ "' object is not subscriptable"))

/-- `v.get(k)`: `AttributeError` on a non-dict, else `pyGet`. -/
def pyGetMethod (v : JValue) (k : String) : Except PyErrPayload JValue :=
  match v with
  | .jdict kvs => .ok (pyGet kvs k)
  | v => .error (.attributeError ("'" ++ v.typeName ++ "' object has no attribute 'get'"))

/-- `HOMEWORK_VERDICTS` of `homework.py`: the static verdict table. -/
def HOMEWORK_VERDICTS : List (String × String) :=
  [("approved", "Работа проверена: ревьюеру всё понравилось. Ура!"),
   ("reviewing", "Работа взята на проверку ревьюером."),
   ("rejected", "Работа проверена: у ревьюера есть замечания.")]

/-- Outcome of the single `requests.get` a cycle performs: either the
request raised a `requests.RequestException` whose `str` is `err`, or it
completed with a status code and a decoded JSON body. -/
inductive HttpResult where
  | netError (err : String)
  | success (status_code : Nat) (body : JValue)

/-- `get_api_answer` of `homework.py`.  The HTTP outcome is an explicit
input; `HTTPStatus.OK` is 200.  On a network-level failure it raises
`exceptions.APIError` with a message holding the cause and the
timestamp; on a non-200 status, `exceptions.APIError` with the status
code; otherwise it returns the decoded JSON body. -/
def get_api_answer (timestamp : JValue) (r : HttpResult) : Except PyErrPayload JValue :=
  match r with
  | .netError error =>
      .error (.apiError
        ("API didn't return correct answer. Error " ++ error
          ++ ". From date: " ++ pyStr timestamp))
  | .success status_code body =>
      if status_code ≠ 200 then
        .error (.apiError ("API returned status " ++ toString status_code))
      else
        .ok body

/-- `check_response` of `homework.py`: `TypeError` on a non-dict,
`exceptions.APIKeyError` naming the first of `homeworks`,
`current_date` whose `.get` reads as `None`, `TypeError` if `homeworks`
is present but not a list, and otherwise nothing (the function only
logs; it changes no state and returns no data). -/
def check_response (response : JValue) : Except PyErrPayload Unit :=
  match response with
  | .jdict kvs =>
    if (pyGet kvs "homeworks").isNull then
      .error (.apiKeyError "API response doesn't contain key 'homeworks'")
    else if (pyGet kvs "current_date").isNull then
      .error (.apiKeyError "API response doesn't contain key 'current_date'")
    else
      match pyGet kvs "homeworks" with
      | .jlist _ => .ok ()
      | _ => .error (.typeError "Key `homeworks` in API response is not list type")
  | _ => .error (.typeError "Unexpected data structure in API response")

/-- `parse_status` of `homework.py`.  `homework.get('homework_name')`
reading as `None` raises `exceptions.HomeworkNameNotFoundError`; then
`status not in HOMEWORK_VERDICTS` raises
`exceptions.HomeworkStatusError` — for an unhashable status (a list or
a dict) the membership test itself raises `TypeError`, exactly as `in`
does on a dict in Python; otherwise the formatted notification string
is returned. -/
def parse_status (homework : JValue) : Except PyErrPayload String :=
  match pyGetMethod homework "homework_name" with
  | .error p => .error p
  | .ok homework_name =>
    if homework_name.isNull then
      .error (.homeworkNameNotFoundError "Key \"homework_name\" not found in this homework")
    else
      match pyGetMethod homework "status" with
      | .error p => .error p
      | .ok status =>
        match status with
        | .jlist _ => .error (.typeError "unhashable type: 'list'")
        | .jdict _ => .error (.typeError "unhashable type: 'dict'")
        | .jstr s =>
          match HOMEWORK_VERDICTS.lookup s with
          | some verdict =>
              .ok ("Изменился статус проверки работы \"" ++ pyStr homework_name
                ++ "\". " ++ verdict)
          | none =>
              .error (.homeworkStatusError
                ("Unexpected status of homework: \"" ++ pyStr status ++ "\""))
        | _ =>
            .error (.homeworkStatusError
              ("Unexpected status of homework: \"" ++ pyStr status ++ "\""))

/-- The `output` slot of a report dict: `None` at startup, the parsed
message string on the success path, the raw exception object on the
error path (line 156 of `homework.py` stores the object itself, not its
string form). -/
inductive Output where
  | onone
  | omsg (s : String)
  | oerr (e : PyError)
deriving DecidableEq

/-- The allocation identity of a stored exception, if the slot holds one. -/
def Output.errId : Output → Option Nat
  | .oerr e => some e.id
  | _ => none

/-- The report dict `{'homework': ..., 'output': ...}` built each cycle
and compared against the previously sent one. -/
structure Report where
  homework : JValue
  output : Output

/-- Python `==` on two report dicts.  Both dicts always carry exactly
the keys `homework` and `output`, so `==` is value equality slot by
slot; exception objects compare by identity, which structural equality
of `PyError` captures because distinct raises carry distinct `id`s. -/
def reportEq (a b : Report) : Bool :=
  JValue.beq a.homework b.homework && decide (a.output = b.output)

/-- The in-memory state of `main`'s loop: the timestamp cursor and the
two report dicts. -/
structure LoopState where
  timestamp : JValue
  current_report : Report
  prev_report : Report

/-- What the `try:` body produced before the diff-check: `skipped` for
an empty `homeworks` list (the `continue` on line 138), or the built
report together with the parsed message and the response's
`current_date`. -/
inductive BodyOutcome where
  | skipped
  | succeeded (cr : Report) (message : String) (ts : JValue)

/-- Lines 133-145 and 150 of `main`'s loop body: fetch, validate,
extract, parse, mutating `current_report` field by field exactly in
source order.  An exception carries the report as mutated so far (the
`except` block sees the partially updated dict).  `current_date` is
extracted here although line 150 assigns it only after the diff-check:
`check_response` has already guaranteed the key is present, so the
direct indexing on line 150 cannot raise and the order is immaterial. -/
def tryBody (st : LoopState) (r : HttpResult) : Except (Report × PyErrPayload) BodyOutcome :=
  match get_api_answer st.timestamp r with
  | .error p => .error (st.current_report, p)
  | .ok response =>
  match check_response response with
  | .error p => .error (st.current_report, p)
  | .ok _ =>
  match pyIndex response "homeworks" with
  | .error p => .error (st.current_report, p)
  | .ok homeworks =>
  if pyNot homeworks then
    .ok .skipped
  else
  match pyIndexNat homeworks 0 with
  | .error p => .error (st.current_report, p)
  | .ok homework =>
  match pyIndex homework "homework_name" with
  | .error p => .error (st.current_report, p)
  | .ok nameVal =>
  let cr1 : Report := { st.current_report with homework := nameVal }
  match parse_status homework with
  | .error p => .error (cr1, p)
  | .ok message =>
  let cr2 : Report := { cr1 with output := .omsg message }
  match pyIndex response "current_date" with
  | .error p => .error (cr2, p)
  | .ok ts => .ok (.succeeded cr2 message ts)

/-- One full iteration of the `while True:` loop of `main` (lines
131-162), except the final unconditional sleep.  `eid` is the identity
of the exception object allocated if this cycle raises.  Returns the
next state and the text handed to `send_message`, if any. -/
def main_step (eid : Nat) (st : LoopState) (r : HttpResult) : LoopState × Option String :=
  match tryBody st r with
  | .ok .skipped => (st, none)
  | .ok (.succeeded cr message ts) =>
      if reportEq cr st.prev_report then
        ({ timestamp := ts, current_report := cr, prev_report := st.prev_report }, none)
      else
        ({ timestamp := ts, current_report := cr, prev_report := cr }, some message)
  | .error (cr, p) =>
      let error : PyError := { id := eid, payload := p }
      let cr2 : Report := { cr with output := .oerr error }
      if reportEq cr2 st.prev_report then
        ({ st with current_report := cr2 }, none)
      else
        ({ st with current_report := cr2, prev_report := cr2 },
          some ("ERROR – " ++ error.str))

/-- The loop state right before the first iteration (lines 127-129):
cursor at process start time, both reports `{'homework': None,
'output': None}`. -/
def initState (t0 : Int) : LoopState :=
  { timestamp := .jint t0
  , current_report := { homework := .jnull, output := .onone }
  , prev_report := { homework := .jnull, output := .onone } }

/-- Classifier used to state claims about `parse_status`: does the result
carry the dedicated unexpected-status error of `exceptions.py`? -/
def isStatusError : Except PyErrPayload String → Bool
  | .error (.homeworkStatusError _) => true
  | _ => false

/-- A status value that Python can hash and that is not a key of the
verdict table: `None`, a bool, a number, or a string outside the table.
For such a status the membership test `status not in HOMEWORK_VERDICTS`
evaluates to `True`; a list or a dict is unhashable and the test itself
raises `TypeError`. -/
def hashableNotInVerdicts : JValue → Bool
  | .jlist _ => false
  | .jdict _ => false
  | .jstr s => !(HOMEWORK_VERDICTS.lookup s).isSome
  | _ => true

theorem JValue.beq_iff : ∀ a b : JValue, (JValue.beq a b = true) ↔ a = b := by
  intro a
  induction a using JValue.rec
    (motive_2 := fun l => ∀ m, (JList.beq l m = true) ↔ l = m)
    (motive_3 := fun d => ∀ e, (JDict.beq d e = true) ↔ d = e) <;>
  · intros
    rename_i b
    cases b <;> simp_all [JValue.beq, JList.beq, JDict.beq, and_assoc]

theorem reportEq_eq_true_iff (a b : Report) : reportEq a b = true ↔ a = b := by
  cases a; cases b
  simp [reportEq, JValue.beq_iff, Report.mk.injEq]

theorem reportEq_eq_false_iff (a b : Report) : reportEq a b = false ↔ a ≠ b := by
  constructor
  · intro h he
    rw [← reportEq_eq_true_iff] at he
    simp [h] at he
  · intro h
    cases hb : reportEq a b
    · rfl
    · exact absurd ((reportEq_eq_true_iff a b).mp hb) h

theorem reportEq_self (a : Report) : reportEq a a = true :=
  (reportEq_eq_true_iff a a).mpr rfl

theorem lookup_of_pyGet {kvs : JDict} {k : String} {v : JValue}
    (h : pyGet kvs k = v) (hv : v.isNull = false) : kvs.lookup k = some v := by
  unfold pyGet at h
  cases hl : kvs.lookup k <;> rw [hl] at h <;> subst h
  · simp [JValue.isNull] at hv
  · rfl

/-- If the report a cycle ends up holding equals the report previously
sent, that cycle handed nothing to `send_message`. -/
theorem main_step_silent_of_eq (eid : Nat) (st : LoopState) (r : HttpResult)
    (h : (main_step eid st r).1.current_report = st.prev_report) :
    (main_step eid st r).2 = none := by
  cases htb : tryBody st r with
  | ok o =>
    cases o with
    | skipped => simp [main_step, htb]
    | succeeded cr m ts =>
      by_cases hc : reportEq cr st.prev_report = true
      · simp [main_step, htb, hc]
      · simp [main_step, htb, hc] at h
        exact absurd ((reportEq_eq_true_iff _ _).mpr h) hc
  | error cp =>
    obtain ⟨cr, p⟩ := cp
    by_cases hc : reportEq { cr with output := .oerr ⟨eid, p⟩ } st.prev_report = true
    · simp [main_step, htb, hc]
    · simp [main_step, htb, hc] at h
      exact absurd ((reportEq_eq_true_iff _ _).mpr h) hc

/-- Every cycle that is not skipped over an empty homework list leaves
the previous report equal to the report it built: either the built
report was sent and adopted, or it already equalled the previous one. -/
theorem main_step_prev_eq_current (eid : Nat) (st : LoopState) (r : HttpResult)
    (h : tryBody st r ≠ .ok .skipped) :
    (main_step eid st r).1.prev_report = (main_step eid st r).1.current_report := by
  cases htb : tryBody st r with
  | ok o =>
    cases o with
    | skipped => exact absurd htb h
    | succeeded cr m ts =>
      by_cases hc : reportEq cr st.prev_report = true
      · simp only [main_step, htb]
        rw [if_pos hc]
        exact ((reportEq_eq_true_iff _ _).mp hc).symm
      · simp [main_step, htb, hc]
  | error cp =>
    obtain ⟨cr, p⟩ := cp
    by_cases hc : reportEq { cr with output := .oerr ⟨eid, p⟩ } st.prev_report = true
    · simp only [main_step, htb]
      rw [if_pos hc]
      exact ((reportEq_eq_true_iff _ _).mp hc).symm
    · simp [main_step, htb, hc]

/-- C1: in the main loop, if the newly built report equals the previously
sent report, no notification is handed to `send_message` that cycle — on
the success path and on the error path alike, since the statement holds
for every outcome of the cycle body.  Consequently two consecutive
identical reports never trigger a second notification: after a cycle
that settled a report (its previous report equals the report it built),
a second cycle building an identical report sends nothing. -/
theorem no_notification_for_identical_reports :
    (∀ eid st r, (main_step eid st r).1.current_report = st.prev_report →
      (main_step eid st r).2 = none)
    ∧ (∀ e1 e2 st r1 r2,
        (main_step e1 st r1).1.prev_report = (main_step e1 st r1).1.current_report →
        (main_step e2 (main_step e1 st r1).1 r2).1.current_report
          = (main_step e1 st r1).1.current_report →
        (main_step e2 (main_step e1 st r1).1 r2).2 = none) := by
  refine ⟨main_step_silent_of_eq, ?_⟩
  intro e1 e2 st r1 r2 h1 h2
  exact main_step_silent_of_eq e2 _ r2 (h2.trans h1.symm)

/-- Witness for C1: two consecutive cycles against a 500-status response
with the same exception identity build identical reports, and the second
sends nothing. -/
theorem no_notification_for_identical_reports_witness :
    ((main_step 0 (main_step 0 (initState 1000) (.success 500 .jnull)).1
        (.success 500 .jnull)).1.current_report
      = (main_step 0 (initState 1000) (.success 500 .jnull)).1.prev_report
     ∧ (main_step 0 (main_step 0 (initState 1000) (.success 500 .jnull)).1
          (.success 500 .jnull)).2 = none)
    ∧ ((main_step 0 (initState 1000) (.success 500 .jnull)).1.prev_report
        = (main_step 0 (initState 1000) (.success 500 .jnull)).1.current_report
       ∧ (main_step 0 (main_step 0 (initState 1000) (.success 500 .jnull)).1
            (.success 500 .jnull)).2 = none) :=
  ⟨⟨rfl, no_notification_for_identical_reports.1 0
      (main_step 0 (initState 1000) (.success 500 .jnull)).1 (.success 500 .jnull) rfl⟩,
   ⟨rfl, no_notification_for_identical_reports.2 0 0 (initState 1000)
      (.success 500 .jnull) (.success 500 .jnull) rfl rfl⟩⟩

/-- C5: a cycle in which the body raises (fetch, validation, extraction
or parsing) builds an error report from the partially updated current
report with the raw exception object as `output`, keeps the timestamp
cursor unchanged, hands an error notification to `send_message` exactly
when the error report differs from the previous report — adopting it as
previous in that case and keeping the previous report otherwise — and
the loop never terminates on it (`main_step` is total and the sleep is
unconditional). -/
theorem error_cycle_behavior (eid : Nat) (st : LoopState) (r : HttpResult)
    (cr : Report) (p : PyErrPayload)
    (htb : tryBody st r = .error (cr, p)) :
    (main_step eid st r).1.timestamp = st.timestamp
    ∧ (main_step eid st r).1.current_report = { cr with output := .oerr ⟨eid, p⟩ }
    ∧ ((main_step eid st r).2 = none ↔ { cr with output := .oerr ⟨eid, p⟩ } = st.prev_report)
    ∧ ({ cr with output := .oerr ⟨eid, p⟩ } ≠ st.prev_report →
        (main_step eid st r).2 = some ("ERROR – " ++ PyError.str ⟨eid, p⟩)
        ∧ (main_step eid st r).1.prev_report = { cr with output := .oerr ⟨eid, p⟩ })
    ∧ ({ cr with output := .oerr ⟨eid, p⟩ } = st.prev_report →
        (main_step eid st r).1.prev_report = st.prev_report) := by
  by_cases hc : reportEq { cr with output := .oerr ⟨eid, p⟩ } st.prev_report = true
  · have he := (reportEq_eq_true_iff _ _).mp hc
    simp [main_step, htb, hc, he, reportEq_self]
  · have hb : reportEq { cr with output := .oerr ⟨eid, p⟩ } st.prev_report = false := by
      cases h' : reportEq { cr with output := .oerr ⟨eid, p⟩ } st.prev_report
      · rfl
      · exact absurd h' hc
    have hne := (reportEq_eq_false_iff _ _).mp hb
    simp [main_step, htb, hb, hne]

/-- Witness for C5: a 500-status response raises `APIError` in the first
cycle from the initial state; the error report differs from the initial
previous report, so the error notification is sent and adopted, and the
cursor stays at 1000. -/
theorem error_cycle_behavior_witness :
    tryBody (initState 1000) (.success 500 .jnull)
      = .error ({ homework := .jnull, output := .onone }, .apiError "API returned status 500")
    ∧ ((main_step 0 (initState 1000) (.success 500 .jnull)).1.timestamp
        = (initState 1000).timestamp
      ∧ (main_step 0 (initState 1000) (.success 500 .jnull)).1.current_report
          = { homework := .jnull,
              output := .oerr ⟨0, .apiError "API returned status 500"⟩ }
      ∧ ((main_step 0 (initState 1000) (.success 500 .jnull)).2 = none ↔
          ({ homework := .jnull, output := .oerr ⟨0, .apiError "API returned status 500"⟩ }
            : Report) = (initState 1000).prev_report)
      ∧ (({ homework := .jnull, output := .oerr ⟨0, .apiError "API returned status 500"⟩ }
            : Report) ≠ (initState 1000).prev_report →
          (main_step 0 (initState 1000) (.success 500 .jnull)).2
            = some ("ERROR – " ++ PyError.str ⟨0, .apiError "API returned status 500"⟩)
          ∧ (main_step 0 (initState 1000) (.success 500 .jnull)).1.prev_report
            = { homework := .jnull,
                output := .oerr ⟨0, .apiError "API returned status 500"⟩ })
      ∧ (({ homework := .jnull, output := .oerr ⟨0, .apiError "API returned status 500"⟩ }
            : Report) = (initState 1000).prev_report →
          (main_step 0 (initState 1000) (.success 500 .jnull)).1.prev_report
            = (initState 1000).prev_report)) :=
  ⟨rfl, error_cycle_behavior 0 (initState 1000) (.success 500 .jnull)
    { homework := .jnull, output := .onone } (.apiError "API returned status 500") rfl⟩

/-- A raising cycle whose freshly allocated exception object is not the
object stored in the previous report always differs from the previous
report, so it notifies and adopts the error report. -/
theorem main_step_error_fresh (eid : Nat) (st : LoopState) (r : HttpResult)
    (cr : Report) (p : PyErrPayload)
    (htb : tryBody st r = .error (cr, p))
    (hfresh : st.prev_report.output.errId ≠ some eid) :
    main_step eid st r
      = ({ st with current_report := { cr with output := .oerr ⟨eid, p⟩ },
                   prev_report := { cr with output := .oerr ⟨eid, p⟩ } },
         some ("ERROR – " ++ PyError.str ⟨eid, p⟩)) := by
  have hb : reportEq { cr with output := .oerr ⟨eid, p⟩ } st.prev_report = false := by
    cases h' : reportEq { cr with output := .oerr ⟨eid, p⟩ } st.prev_report
    · rfl
    · have he := (reportEq_eq_true_iff _ _).mp h'
      have ho : st.prev_report.output = .oerr ⟨eid, p⟩ := by rw [← he]
      exact absurd (by rw [ho]; rfl) hfresh
  simp [main_step, htb, hb]

/-- C2: the error path stores the raw exception object (not its string
form) as the report's `output`, so error reports compare by object
identity.  For two consecutive raising cycles whose exception objects
are fresh (the first is not the object already stored in the previous
report, the second is a new allocation distinct from the first), the
built report differs from the previous one each time — even when the
exception messages are identical — and an error notification is sent in
both cycles. -/
theorem consecutive_error_cycles_both_notify
    (st : LoopState) (r1 r2 : HttpResult) (e1 e2 : Nat)
    (cr1 cr2 : Report) (p1 p2 : PyErrPayload)
    (h1 : tryBody st r1 = .error (cr1, p1))
    (hfresh : st.prev_report.output.errId ≠ some e1)
    (h2 : tryBody (main_step e1 st r1).1 r2 = .error (cr2, p2))
    (hid : e2 ≠ e1) :
    (main_step e1 st r1).1.current_report.output = .oerr ⟨e1, p1⟩
    ∧ (main_step e1 st r1).2 = some ("ERROR – " ++ PyError.str ⟨e1, p1⟩)
    ∧ (main_step e2 (main_step e1 st r1).1 r2).2
        = some ("ERROR – " ++ PyError.str ⟨e2, p2⟩) := by
  have hs1 := main_step_error_fresh e1 st r1 cr1 p1 h1 hfresh
  have hfresh2 : (main_step e1 st r1).1.prev_report.output.errId ≠ some e2 := by
    rw [hs1]
    simp only [Output.errId]
    exact fun h => hid (Option.some.inj h).symm
  have hs2 := main_step_error_fresh e2 (main_step e1 st r1).1 r2 cr2 p2 h2 hfresh2
  refine ⟨by rw [hs1], by rw [hs1], by rw [hs2]⟩

/-- Witness for C2: two consecutive cycles each hitting a 500 status
raise two `APIError`s with the identical message "API returned status
500", and the loop notifies in both cycles. -/
theorem consecutive_error_cycles_both_notify_witness :
    tryBody (initState 1000) (.success 500 .jnull)
      = .error ({ homework := .jnull, output := .onone }, .apiError "API returned status 500")
    ∧ (initState 1000).prev_report.output.errId ≠ some 0
    ∧ tryBody (main_step 0 (initState 1000) (.success 500 .jnull)).1 (.success 500 .jnull)
      = .error ({ homework := .jnull,
                  output := .oerr ⟨0, .apiError "API returned status 500"⟩ },
          .apiError "API returned status 500")
    ∧ (1 : Nat) ≠ 0
    ∧ ((main_step 0 (initState 1000) (.success 500 .jnull)).1.current_report.output
        = .oerr ⟨0, .apiError "API returned status 500"⟩
      ∧ (main_step 0 (initState 1000) (.success 500 .jnull)).2
        = some ("ERROR – " ++ PyError.str ⟨0, .apiError "API returned status 500"⟩)
      ∧ (main_step 1 (main_step 0 (initState 1000) (.success 500 .jnull)).1
          (.success 500 .jnull)).2
        = some ("ERROR – " ++ PyError.str ⟨1, .apiError "API returned status 500"⟩)) :=
  ⟨rfl, by decide, rfl, by decide,
   consecutive_error_cycles_both_notify (initState 1000)
     (.success 500 .jnull) (.success 500 .jnull) 0 1
     { homework := .jnull, output := .onone }
     { homework := .jnull, output := .oerr ⟨0, .apiError "API returned status 500"⟩ }
     (.apiError "API returned status 500") (.apiError "API returned status 500")
     rfl (by decide) rfl (by decide)⟩

/-- C3: in a cycle where the fetch succeeds with status 200, validation
passes, the homework list is non-empty, the direct name indexing
succeeds and parsing succeeds, the loop sets the timestamp cursor to the
value stored under `current_date` in the response — whether or not the
diff-check sent a notification (the statement holds for every previous
report). -/
theorem successful_cycle_advances_cursor
    (eid : Nat) (st : LoopState) (kvs : JDict) (hw : JValue) (tl : JList)
    (cd nm : JValue) (msg : String)
    (hchk : check_response (.jdict kvs) = .ok ())
    (hhw : pyGet kvs "homeworks" = .jlist (.cons hw tl))
    (hcd : kvs.lookup "current_date" = some cd)
    (hnm : pyIndex hw "homework_name" = .ok nm)
    (hps : parse_status hw = .ok msg) :
    (main_step eid st (.success 200 (.jdict kvs))).1.timestamp = cd := by
  have hlk : kvs.lookup "homeworks" = some (.jlist (.cons hw tl)) :=
    lookup_of_pyGet hhw rfl
  have hpx1 : pyIndex (.jdict kvs) "homeworks" = .ok (.jlist (.cons hw tl)) := by
    simp [pyIndex, hlk]
  have hpx2 : pyIndex (.jdict kvs) "current_date" = .ok cd := by
    simp [pyIndex, hcd]
  have htb : tryBody st (.success 200 (.jdict kvs))
      = .ok (.succeeded { homework := nm, output := .omsg msg } msg cd) := by
    simp [tryBody, get_api_answer, hchk, hpx1, hpx2, pyNot, pyIndexNat, JList.get?,
      hnm, hps]
  cases hc : reportEq { homework := nm, output := .omsg msg } st.prev_report <;>
    simp [main_step, htb, hc]

/-- Witness for C3, the spec's end-to-end example: timestamp 1000, the
API returns one homework "hw1" in status "reviewing" with current_date
2000, and the cursor moves to 2000. -/
theorem successful_cycle_advances_cursor_witness :
    check_response (.jdict (.cons "homeworks"
        (.jlist (.cons (.jdict (.cons "homework_name" (.jstr "hw1")
          (.cons "status" (.jstr "reviewing") .nil))) .nil))
        (.cons "current_date" (.jint 2000) .nil))) = .ok ()
    ∧ pyGet (.cons "homeworks"
        (.jlist (.cons (.jdict (.cons "homework_name" (.jstr "hw1")
          (.cons "status" (.jstr "reviewing") .nil))) .nil))
        (.cons "current_date" (.jint 2000) .nil)) "homeworks"
      = .jlist (.cons (.jdict (.cons "homework_name" (.jstr "hw1")
          (.cons "status" (.jstr "reviewing") .nil))) .nil)
    ∧ (main_step 0 (initState 1000) (.success 200 (.jdict (.cons "homeworks"
        (.jlist (.cons (.jdict (.cons "homework_name" (.jstr "hw1")
          (.cons "status" (.jstr "reviewing") .nil))) .nil))
        (.cons "current_date" (.jint 2000) .nil))))).1.timestamp = .jint 2000 :=
  ⟨rfl, rfl,
   successful_cycle_advances_cursor 0 (initState 1000)
     (.cons "homeworks"
       (.jlist (.cons (.jdict (.cons "homework_name" (.jstr "hw1")
         (.cons "status" (.jstr "reviewing") .nil))) .nil))
       (.cons "current_date" (.jint 2000) .nil))
     (.jdict (.cons "homework_name" (.jstr "hw1") (.cons "status" (.jstr "reviewing") .nil)))
     .nil (.jint 2000) (.jstr "hw1")
     "Изменился статус проверки работы \"hw1\". Работа взята на проверку ревьюером."
     rfl rfl rfl rfl rfl⟩

/-- C4: a cycle whose validated response carries an empty `homeworks`
list is a no-op apart from logging: no notification, the current and
previous reports unchanged, the timestamp cursor unchanged — the next
fetch reuses the same timestamp. -/
theorem empty_homeworks_cycle_is_noop
    (eid : Nat) (st : LoopState) (kvs : JDict)
    (hchk : check_response (.jdict kvs) = .ok ())
    (hhw : pyGet kvs "homeworks" = .jlist .nil) :
    main_step eid st (.success 200 (.jdict kvs)) = (st, none) := by
  have hlk : kvs.lookup "homeworks" = some (.jlist .nil) := lookup_of_pyGet hhw rfl
  simp [main_step, tryBody, get_api_answer, hchk, pyIndex, hlk, pyNot]

/-- Witness for C4: a validated response with an empty homework list and
current_date 5 leaves the whole loop state at its initial value and
sends nothing. -/
theorem empty_homeworks_cycle_is_noop_witness :
    check_response (.jdict (.cons "homeworks" (.jlist .nil)
        (.cons "current_date" (.jint 5) .nil))) = .ok ()
    ∧ pyGet (.cons "homeworks" (.jlist .nil) (.cons "current_date" (.jint 5) .nil))
        "homeworks" = .jlist .nil
    ∧ main_step 0 (initState 1000) (.success 200 (.jdict (.cons "homeworks" (.jlist .nil)
        (.cons "current_date" (.jint 5) .nil)))) = (initState 1000, none) :=
  ⟨rfl, rfl,
   empty_homeworks_cycle_is_noop 0 (initState 1000)
     (.cons "homeworks" (.jlist .nil) (.cons "current_date" (.jint 5) .nil)) rfl rfl⟩

/-- C6: for a homework record whose `homework_name` reads as the string
"X" and whose `status` reads as "approved", `parse_status` returns
exactly the advertised Russian sentence. -/
theorem parse_status_approved_message
    (hw : JValue)
    (hname : pyGetMethod hw "homework_name" = .ok (.jstr "X"))
    (hstatus : pyGetMethod hw "status" = .ok (.jstr "approved")) :
    parse_status hw
      = .ok "Изменился статус проверки работы \"X\". Работа проверена: ревьюеру всё понравилось. Ура!" := by
  unfold parse_status
  rw [hname, hstatus]
  rfl

/-- Witness for C6 at the two-field record ("homework_name": "X",
"status": "approved"). -/
theorem parse_status_approved_message_witness :
    pyGetMethod (.jdict (.cons "homework_name" (.jstr "X")
        (.cons "status" (.jstr "approved") .nil))) "homework_name" = .ok (.jstr "X")
    ∧ pyGetMethod (.jdict (.cons "homework_name" (.jstr "X")
        (.cons "status" (.jstr "approved") .nil))) "status" = .ok (.jstr "approved")
    ∧ parse_status (.jdict (.cons "homework_name" (.jstr "X")
        (.cons "status" (.jstr "approved") .nil)))
      = .ok "Изменился статус проверки работы \"X\". Работа проверена: ревьюеру всё понравилось. Ура!" :=
  ⟨rfl, rfl,
   parse_status_approved_message (.jdict (.cons "homework_name" (.jstr "X")
     (.cons "status" (.jstr "approved") .nil))) rfl rfl⟩

/-- Counterexample to C7 as stated: a record with a name present and a
status that is not in the verdict table — here a list-valued status —
does NOT make `parse_status` raise the unexpected-status error.  The
membership test `status not in HOMEWORK_VERDICTS` hashes the status and
raises `TypeError: unhashable type: 'list'` instead. -/
theorem parse_status_unhashable_status_counterexample :
    parse_status (.jdict (.cons "homework_name" (.jstr "X")
        (.cons "status" (.jlist .nil) .nil)))
      = .error (.typeError "unhashable type: 'list'")
    ∧ isStatusError (parse_status (.jdict (.cons "homework_name" (.jstr "X")
        (.cons "status" (.jlist .nil) .nil)))) = false :=
  ⟨rfl, rfl⟩

/-- C7, amended: for a record whose name reads as `None` (absent or
null), `parse_status` raises the name-missing error; with a name present
and a *hashable* status that is not a key of the verdict table (absent,
null, bool, number, or a string outside the table) it raises the
unexpected-status error; a list-valued or dict-valued status instead
makes the membership test raise `TypeError` (unhashable type). -/
theorem parse_status_error_classification :
    (∀ hkvs : JDict, (pyGet hkvs "homework_name").isNull = true →
      parse_status (.jdict hkvs)
        = .error (.homeworkNameNotFoundError "Key \"homework_name\" not found in this homework"))
    ∧ (∀ hkvs : JDict, (pyGet hkvs "homework_name").isNull = false →
        hashableNotInVerdicts (pyGet hkvs "status") = true →
        parse_status (.jdict hkvs)
          = .error (.homeworkStatusError
              ("Unexpected status of homework: \"" ++ pyStr (pyGet hkvs "status") ++ "\"")))
    ∧ (∀ hkvs : JDict, (pyGet hkvs "homework_name").isNull = false →
        (pyGet hkvs "status").isList = true →
        parse_status (.jdict hkvs) = .error (.typeError "unhashable type: 'list'"))
    ∧ (∀ hkvs : JDict, (pyGet hkvs "homework_name").isNull = false →
        (pyGet hkvs "status").isDict = true →
        parse_status (.jdict hkvs) = .error (.typeError "unhashable type: 'dict'")) := by
  refine ⟨?_, ?_, ?_, ?_⟩
  · intro hkvs h
    simp [parse_status, pyGetMethod, h]
  · intro hkvs h1 h2
    cases hst : pyGet hkvs "status" with
    | jstr s =>
      cases hl : HOMEWORK_VERDICTS.lookup s with
      | none => simp [parse_status, pyGetMethod, h1, hst, hl]
      | some w =>
        rw [hst] at h2
        simp [hashableNotInVerdicts, hl] at h2
    | jlist xs =>
      rw [hst] at h2
      simp [hashableNotInVerdicts] at h2
    | jdict d =>
      rw [hst] at h2
      simp [hashableNotInVerdicts] at h2
    | jnull => simp [parse_status, pyGetMethod, h1, hst]
    | jbool b => simp [parse_status, pyGetMethod, h1, hst]
    | jint n => simp [parse_status, pyGetMethod, h1, hst]
  · intro hkvs h1 h2
    cases hst : pyGet hkvs "status" <;> rw [hst] at h2 <;>
      simp_all [parse_status, pyGetMethod, JValue.isList, h1, hst]
  · intro hkvs h1 h2
    cases hst : pyGet hkvs "status" <;> rw [hst] at h2 <;>
      simp_all [parse_status, pyGetMethod, JValue.isDict, h1, hst]

/-- Witness for the amended C7: a null name raises the name error; an
absent status (reading as `None`) raises the unexpected-status error
with the interpolated text "None"; a list status and a dict status each
raise the unhashable TypeError. -/
theorem parse_status_error_classification_witness :
    ((pyGet (.cons "homework_name" .jnull .nil) "homework_name").isNull = true
     ∧ parse_status (.jdict (.cons "homework_name" .jnull .nil))
        = .error (.homeworkNameNotFoundError "Key \"homework_name\" not found in this homework"))
    ∧ ((pyGet (.cons "homework_name" (.jstr "X") .nil) "homework_name").isNull = false
       ∧ hashableNotInVerdicts (pyGet (.cons "homework_name" (.jstr "X") .nil) "status") = true
       ∧ parse_status (.jdict (.cons "homework_name" (.jstr "X") .nil))
          = .error (.homeworkStatusError
              ("Unexpected status of homework: \""
                ++ pyStr (pyGet (.cons "homework_name" (.jstr "X") .nil) "status") ++ "\"")))
    ∧ ((pyGet (.cons "homework_name" (.jstr "X") (.cons "status" (.jlist .nil) .nil))
          "homework_name").isNull = false
       ∧ (pyGet (.cons "homework_name" (.jstr "X") (.cons "status" (.jlist .nil) .nil))
            "status").isList = true
       ∧ parse_status (.jdict (.cons "homework_name" (.jstr "X")
            (.cons "status" (.jlist .nil) .nil)))
          = .error (.typeError "unhashable type: 'list'"))
    ∧ ((pyGet (.cons "homework_name" (.jstr "X") (.cons "status" (.jdict .nil) .nil))
          "homework_name").isNull = false
       ∧ (pyGet (.cons "homework_name" (.jstr "X") (.cons "status" (.jdict .nil) .nil))
            "status").isDict = true
       ∧ parse_status (.jdict (.cons "homework_name" (.jstr "X")
            (.cons "status" (.jdict .nil) .nil)))
          = .error (.typeError "unhashable type: 'dict'")) :=
  ⟨⟨rfl, parse_status_error_classification.1 (.cons "homework_name" .jnull .nil) rfl⟩,
   ⟨rfl, rfl, parse_status_error_classification.2.1
      (.cons "homework_name" (.jstr "X") .nil) rfl rfl⟩,
   ⟨rfl, rfl, parse_status_error_classification.2.2.1
      (.cons "homework_name" (.jstr "X") (.cons "status" (.jlist .nil) .nil)) rfl rfl⟩,
   ⟨rfl, rfl, parse_status_error_classification.2.2.2
      (.cons "homework_name" (.jstr "X") (.cons "status" (.jdict .nil) .nil)) rfl rfl⟩⟩

/-- C8: `check_response` raises `TypeError` on every non-mapping value;
on a mapping it raises `APIKeyError` naming `homeworks` whenever that
key is absent or null, then `APIKeyError` naming `current_date` whenever
that key is absent or null; with both present it raises `TypeError` if
`homeworks` is not a list; and otherwise it raises nothing (it returns
unit and, being a pure function of its argument, changes no state). -/
theorem check_response_classification :
    (∀ v : JValue, v.isDict = false →
      check_response v = .error (.typeError "Unexpected data structure in API response"))
    ∧ (∀ kvs : JDict, (pyGet kvs "homeworks").isNull = true →
        check_response (.jdict kvs)
          = .error (.apiKeyError "API response doesn't contain key 'homeworks'"))
    ∧ (∀ kvs : JDict, (pyGet kvs "homeworks").isNull = false →
        (pyGet kvs "current_date").isNull = true →
        check_response (.jdict kvs)
          = .error (.apiKeyError "API response doesn't contain key 'current_date'"))
    ∧ (∀ kvs : JDict, (pyGet kvs "homeworks").isNull = false →
        (pyGet kvs "current_date").isNull = false →
        (pyGet kvs "homeworks").isList = false →
        check_response (.jdict kvs)
          = .error (.typeError "Key `homeworks` in API response is not list type"))
    ∧ (∀ kvs : JDict, (pyGet kvs "homeworks").isList = true →
        (pyGet kvs "current_date").isNull = false →
        check_response (.jdict kvs) = .ok ()) := by
  refine ⟨?_, ?_, ?_, ?_, ?_⟩
  · intro v h
    cases v <;> simp_all [check_response, JValue.isDict]
  · intro kvs h
    simp [check_response, h]
  · intro kvs h1 h2
    simp [check_response, h1, h2]
  · intro kvs h1 h2 h3
    cases hst : pyGet kvs "homeworks" <;> rw [hst] at h1 h3 <;>
      simp_all [check_response, JValue.isNull, JValue.isList, hst]
  · intro kvs h1 h2
    cases hst : pyGet kvs "homeworks" <;> rw [hst] at h1 <;>
      simp_all [check_response, JValue.isNull, JValue.isList, hst]

/-- Witness for C8 at one concrete mapping per branch: a bare integer, an
empty mapping, a mapping with only `homeworks`, a mapping whose
`homeworks` is a number, and a well-formed mapping. -/
theorem check_response_classification_witness :
    ((JValue.jint 3).isDict = false
     ∧ check_response (.jint 3) = .error (.typeError "Unexpected data structure in API response"))
    ∧ ((pyGet .nil "homeworks").isNull = true
       ∧ check_response (.jdict .nil)
          = .error (.apiKeyError "API response doesn't contain key 'homeworks'"))
    ∧ ((pyGet (.cons "homeworks" (.jlist .nil) .nil) "homeworks").isNull = false
       ∧ (pyGet (.cons "homeworks" (.jlist .nil) .nil) "current_date").isNull = true
       ∧ check_response (.jdict (.cons "homeworks" (.jlist .nil) .nil))
          = .error (.apiKeyError "API response doesn't contain key 'current_date'"))
    ∧ ((pyGet (.cons "homeworks" (.jint 7) (.cons "current_date" (.jint 5) .nil))
          "homeworks").isNull = false
       ∧ (pyGet (.cons "homeworks" (.jint 7) (.cons "current_date" (.jint 5) .nil))
            "current_date").isNull = false
       ∧ (pyGet (.cons "homeworks" (.jint 7) (.cons "current_date" (.jint 5) .nil))
            "homeworks").isList = false
       ∧ check_response (.jdict (.cons "homeworks" (.jint 7)
            (.cons "current_date" (.jint 5) .nil)))
          = .error (.typeError "Key `homeworks` in API response is not list type"))
    ∧ ((pyGet (.cons "homeworks" (.jlist .nil) (.cons "current_date" (.jint 5) .nil))
          "homeworks").isList = true
       ∧ (pyGet (.cons "homeworks" (.jlist .nil) (.cons "current_date" (.jint 5) .nil))
            "current_date").isNull = false
       ∧ check_response (.jdict (.cons "homeworks" (.jlist .nil)
            (.cons "current_date" (.jint 5) .nil))) = .ok ()) :=
  ⟨⟨rfl, check_response_classification.1 (.jint 3) rfl⟩,
   ⟨rfl, check_response_classification.2.1 .nil rfl⟩,
   ⟨rfl, rfl, check_response_classification.2.2.1 (.cons "homeworks" (.jlist .nil) .nil) rfl rfl⟩,
   ⟨rfl, rfl, rfl, check_response_classification.2.2.2.1
      (.cons "homeworks" (.jint 7) (.cons "current_date" (.jint 5) .nil)) rfl rfl rfl⟩,
   ⟨rfl, rfl, check_response_classification.2.2.2.2
      (.cons "homeworks" (.jlist .nil) (.cons "current_date" (.jint 5) .nil)) rfl rfl⟩⟩

/-- C9: `get_api_answer` raises `APIError` whose message contains the
underlying cause and the given timestamp when the request itself fails;
raises `APIError` whose message contains the status code when the
request completes with a non-200 status; and returns the decoded JSON
body on a 200 response. -/
theorem get_api_answer_behavior :
    (∀ (t : JValue) (e : String),
      get_api_answer t (.netError e)
        = .error (.apiError
            ("API didn't return correct answer. Error " ++ e ++ ". From date: " ++ pyStr t))
      ∧ (∃ a b, ("API didn't return correct answer. Error " ++ e ++ ". From date: " ++ pyStr t)
            = a ++ e ++ b)
      ∧ (∃ a b, ("API didn't return correct answer. Error " ++ e ++ ". From date: " ++ pyStr t)
            = a ++ pyStr t ++ b))
    ∧ (∀ (t : JValue) (s : Nat) (body : JValue), s ≠ 200 →
        get_api_answer t (.success s body)
          = .error (.apiError ("API returned status " ++ toString s))
        ∧ ∃ a b, ("API returned status " ++ toString s) = a ++ toString s ++ b)
    ∧ (∀ (t body : JValue), get_api_answer t (.success 200 body) = .ok body) := by
  refine ⟨?_, ?_, ?_⟩
  · intro t e
    refine ⟨rfl,
      ⟨"API didn't return correct answer. Error ", ". From date: " ++ pyStr t, ?_⟩,
      ⟨"API didn't return correct answer. Error " ++ e ++ ". From date: ", "", ?_⟩⟩
    · rw [String.append_assoc]
    · rw [String.append_empty]
  · intro t s body h
    exact ⟨by simp [get_api_answer, h],
      ⟨"API returned status ", "", by rw [String.append_empty]⟩⟩
  · intro t body
    simp [get_api_answer]

/-- Witness for C9: the network-error message for cause "boom" at
timestamp 1000, the 500-status error, and the 200 path returning the
body. -/
theorem get_api_answer_behavior_witness :
    (get_api_answer (.jint 1000) (.netError "boom")
       = .error (.apiError "API didn't return correct answer. Error boom. From date: 1000")
     ∧ (∃ a b, ("API didn't return correct answer. Error " ++ "boom"
          ++ ". From date: " ++ pyStr (.jint 1000)) = a ++ "boom" ++ b)
     ∧ (∃ a b, ("API didn't return correct answer. Error " ++ "boom"
          ++ ". From date: " ++ pyStr (.jint 1000)) = a ++ pyStr (.jint 1000) ++ b))
    ∧ ((500 : Nat) ≠ 200
       ∧ get_api_answer (.jint 1000) (.success 500 (.jstr "body"))
          = .error (.apiError "API returned status 500")
       ∧ ∃ a b, ("API returned status " ++ toString (500 : Nat)) = a ++ toString (500 : Nat) ++ b)
    ∧ get_api_answer (.jint 1000) (.success 200 (.jstr "body")) = .ok (.jstr "body") := by
  refine ⟨?_, ⟨by decide, ?_⟩, ?_⟩
  · exact get_api_answer_behavior.1 (.jint 1000) "boom"
  · exact get_api_answer_behavior.2.1 (.jint 1000) 500 (.jstr "body") (by decide)
  · exact get_api_answer_behavior.2.2 (.jint 1000) (.jstr "body")

/-- Counterexample to C10 as stated: the dedicated name-missing error of
`parse_status` IS reachable from the main loop.  When the first homework
carries `homework_name` with a null value, the direct indexing on line
140 succeeds (returning `None`) and `parse_status` then raises
`HomeworkNameNotFoundError`, which the loop stores and reports — so the
error reported for this nameless homework is the name error, not a
`KeyError`. -/
theorem name_error_reachable_from_loop :
    (main_step 0 (initState 1000)
      (.success 200 (.jdict (.cons "homeworks"
        (.jlist (.cons (.jdict (.cons "homework_name" .jnull
          (.cons "status" (.jstr "approved") .nil))) .nil))
        (.cons "current_date" (.jint 2000) .nil))))).1.current_report.output
      = .oerr ⟨0, .homeworkNameNotFoundError "Key \"homework_name\" not found in this homework"⟩
    ∧ (main_step 0 (initState 1000)
        (.success 200 (.jdict (.cons "homeworks"
          (.jlist (.cons (.jdict (.cons "homework_name" .jnull
            (.cons "status" (.jstr "approved") .nil))) .nil))
          (.cons "current_date" (.jint 2000) .nil))))).2
      = some "ERROR – Key \"homework_name\" not found in this homework" :=
  ⟨rfl, rfl⟩

/-- C10, amended: when the first homework of a validated response lacks
the `homework_name` key entirely, the loop body raises a generic
`KeyError` at the direct indexing of line 140, before `parse_status`
runs and before the report is mutated, so for an absent key the loop
reports the `KeyError` and never reaches the dedicated name error; but
when the key is present with a null value the indexing succeeds, the
report's homework slot is set to `None`, and `parse_status` raises its
name-missing error from within the loop. -/
theorem nameless_homework_keyerror
    (st : LoopState) (kvs hkvs : JDict) (tl : JList)
    (hchk : check_response (.jdict kvs) = .ok ())
    (hhw : pyGet kvs "homeworks" = .jlist (.cons (.jdict hkvs) tl)) :
    (hkvs.lookup "homework_name" = none →
      tryBody st (.success 200 (.jdict kvs))
        = .error (st.current_report, .keyError "'homework_name'"))
    ∧ (hkvs.lookup "homework_name" = some .jnull →
      tryBody st (.success 200 (.jdict kvs))
        = .error ({ st.current_report with homework := .jnull },
            .homeworkNameNotFoundError "Key \"homework_name\" not found in this homework")) := by
  have hlk : kvs.lookup "homeworks" = some (.jlist (.cons (.jdict hkvs) tl)) :=
    lookup_of_pyGet hhw rfl
  constructor
  · intro hn
    simp [tryBody, get_api_answer, hchk, hlk, pyNot, pyIndexNat, JList.get?, pyIndex, hn]
  · intro hn
    simp [tryBody, get_api_answer, hchk, hlk, pyNot, pyIndexNat, JList.get?, pyIndex, hn,
      parse_status, pyGetMethod, pyGet, JValue.isNull]

/-- Witness for the amended C10: with a first homework `{"status":
"approved"}` the body raises `KeyError('homework_name')`; with
`{"homework_name": null, "status": "approved"}` it raises the dedicated
name error after mutating the report's homework slot. -/
theorem nameless_homework_keyerror_witness :
    check_response (.jdict (.cons "homeworks"
        (.jlist (.cons (.jdict (.cons "status" (.jstr "approved") .nil)) .nil))
        (.cons "current_date" (.jint 2000) .nil))) = .ok ()
    ∧ pyGet (.cons "homeworks"
        (.jlist (.cons (.jdict (.cons "status" (.jstr "approved") .nil)) .nil))
        (.cons "current_date" (.jint 2000) .nil)) "homeworks"
      = .jlist (.cons (.jdict (.cons "status" (.jstr "approved") .nil)) .nil)
    ∧ ((JDict.cons "status" (.jstr "approved") .nil).lookup "homework_name" = none →
        tryBody (initState 1000) (.success 200 (.jdict (.cons "homeworks"
            (.jlist (.cons (.jdict (.cons "status" (.jstr "approved") .nil)) .nil))
            (.cons "current_date" (.jint 2000) .nil))))
          = .error ((initState 1000).current_report, .keyError "'homework_name'"))
    ∧ ((JDict.cons "homework_name" .jnull (.cons "status" (.jstr "approved") .nil)).lookup
          "homework_name" = some .jnull →
        tryBody (initState 1000) (.success 200 (.jdict (.cons "homeworks"
            (.jlist (.cons (.jdict (.cons "homework_name" .jnull
              (.cons "status" (.jstr "approved") .nil))) .nil))
            (.cons "current_date" (.jint 2000) .nil))))
          = .error ({ (initState 1000).current_report with homework := .jnull },
              .homeworkNameNotFoundError "Key \"homework_name\" not found in this homework")) :=
  ⟨rfl, rfl,
   (nameless_homework_keyerror (initState 1000)
     (.cons "homeworks"
       (.jlist (.cons (.jdict (.cons "status" (.jstr "approved") .nil)) .nil))
       (.cons "current_date" (.jint 2000) .nil))
     (.cons "status" (.jstr "approved") .nil) .nil rfl rfl).1,
   (nameless_homework_keyerror (initState 1000)
     (.cons "homeworks"
       (.jlist (.cons (.jdict (.cons "homework_name" .jnull
         (.cons "status" (.jstr "approved") .nil))) .nil))
       (.cons "current_date" (.jint 2000) .nil))
     (.cons "homework_name" .jnull (.cons "status" (.jstr "approved") .nil)) .nil rfl rfl).2⟩
